import Mathlib

/-!
# Verification of the hashub-vector-js request executor and error classifier

A shallow embedding of the TypeScript SDK `hashub-vector-js`:

* `src/errors.ts` — the error class hierarchy (`HashubVectorError` and its
  seven subclasses), modelled as a single record type `ClassifiedError`
  together with one constructor function per class.
* `src/client.ts` — the `HashubVector` client: configuration resolution in
  the constructor, the default request headers, the retrying executor
  `makeRequest`, and the error classifier `handleError` (installed as an
  axios response interceptor, so every failure reaching `makeRequest`'s
  `catch` is already classified).
* The request-shaping of `vectorize`, `vectorizeBatch` and `similarity`
  (default model substitution).

JavaScript values appearing in response bodies are modelled by `JsonValue`;
JavaScript truthiness, optional chaining (`data?.message`), `parseInt`
(which yields `NaN` on non-numeric input) and object-spread semantics are
modelled explicitly.
-/

namespace HashubVector

/-- A JSON-like JavaScript value, as it appears in an HTTP response body. -/
inductive JsonValue where
  | null
  | bool (b : Bool)
  | num (n : Int)
  | str (s : String)
  | arr (elems : List JsonValue)
  | obj (fields : List (String × JsonValue))
deriving Repr

/-- JavaScript truthiness of a `JsonValue` (`""`, `0`, `false`, `null` are
falsy; every object and array is truthy). -/
def JsonValue.truthy : JsonValue → Bool
  | .null => false
  | .bool b => b
  | .num n => n != 0
  | .str s => s != ""
  | .arr _ => true
  | .obj _ => true

/-- Property access `v[k]` on a JavaScript value: defined only on objects
(first binding wins, as in a parsed-JSON object with distinct keys);
on every non-object it yields `undefined`, modelled as `none`. -/
def JsonValue.getField : JsonValue → String → Option JsonValue
  | .obj fields, k => (fields.find? (fun p => p.1 == k)).map Prod.snd
  | _, _ => none

/-- Truthiness of a possibly-`undefined` value (`undefined` is falsy). -/
def truthyOpt : Option JsonValue → Bool
  | none => false
  | some v => v.truthy

/-- A JavaScript number restricted to what `parseInt` can produce:
an integer or `NaN`. -/
inductive JsNumber where
  | nan
  | int (n : Int)
deriving Repr, DecidableEq

/-- JavaScript whitespace stripped by `parseInt`: the ECMAScript
WhiteSpace and LineTerminator characters (tab, line feed, vertical tab,
form feed, carriage return, space, no-break space, line separator,
paragraph separator, zero-width no-break space). -/
def jsWhitespace (c : Char) : Bool :=
  c == ' ' || c == '\t' || c == '\n' || c == '\r' ||
  c == '\x0b' || c == '\x0c' || c == '\u00A0' ||
  c == '\u2028' || c == '\u2029' || c == '\uFEFF'

/-- Value of the longest non-empty prefix of decimal digits; `none` if the
first character is not a decimal digit. -/
def leadingNat (cs : List Char) : Option Nat :=
  let ds := cs.takeWhile Char.isDigit
  if ds.isEmpty then none
  else some (ds.foldl (fun acc c => 10 * acc + (c.toNat - '0'.toNat)) 0)

/-- Hexadecimal digit test for `parseInt`'s radix-16 mode. -/
def isHexDigit (c : Char) : Bool :=
  c.isDigit || ('a' ≤ c && c ≤ 'f') || ('A' ≤ c && c ≤ 'F')

/-- Value of a hexadecimal digit. -/
def hexDigitVal (c : Char) : Nat :=
  if c.isDigit then c.toNat - '0'.toNat
  else if 'a' ≤ c && c ≤ 'f' then c.toNat - 'a'.toNat + 10
  else c.toNat - 'A'.toNat + 10

/-- Value of the longest non-empty prefix of hexadecimal digits; `none`
if the first character is not a hexadecimal digit. -/
def leadingNatHex (cs : List Char) : Option Nat :=
  let ds := cs.takeWhile isHexDigit
  if ds.isEmpty then none
  else some (ds.foldl (fun acc c => 16 * acc + hexDigitVal c) 0)

/-- The unsigned part of JavaScript `parseInt` with no radix argument:
a `0x`/`0X` prefix switches to hexadecimal (the prefix is stripped and at
least one hex digit must follow), otherwise the longest decimal-digit
prefix is read; `none` when no digit is found. -/
def parseUnsigned (cs : List Char) : Option Nat :=
  match cs with
  | '0' :: x :: rest =>
    if x == 'x' || x == 'X' then leadingNatHex rest else leadingNat cs
  | _ => leadingNat cs

/-- JavaScript `parseInt(s)` with no radix argument: skip leading
JavaScript whitespace, accept an optional sign, honour a `0x`/`0X`
hexadecimal prefix, then read the longest run of digits of the selected
radix; `NaN` when no digit is found. -/
def parseIntJs (s : String) : JsNumber :=
  let cs := s.toList.dropWhile jsWhitespace
  match cs with
  | '-' :: rest =>
    match parseUnsigned rest with
    | some n => .int (-(n : Int))
    | none => .nan
  | '+' :: rest =>
    match parseUnsigned rest with
    | some n => .int (n : Int)
    | none => .nan
  | _ =>
    match parseUnsigned cs with
    | some n => .int (n : Int)
    | none => .nan

/-! ## The error hierarchy (`src/errors.ts`)

Every error object produced by the SDK carries the fields below; the class
of the object is recorded in `name`, exactly as the constructors set
`this.name`. -/

/-- An SDK error object: one record covers `HashubVectorError` and all its
subclasses, distinguished by `name`. `message` is the (arbitrary JavaScript)
value passed to the constructor; `retryAfter` is set only by
`RateLimitError`. -/
structure ClassifiedError where
  name : String
  message : JsonValue
  code : Option String
  status : Option Nat
  retryAfter : Option JsNumber
  details : Option JsonValue
deriving Repr

/-- Model of `new HashubVectorError(message, code?, status?, details?)`. -/
def mkHashubVectorError (message : JsonValue) (code : Option String)
    (status : Option Nat) (details : Option JsonValue) : ClassifiedError :=
  { name := "HashubVectorError", message := message, code := code,
    status := status, retryAfter := none, details := details }

/-- Model of `new AuthenticationError(message)`: code `AUTHENTICATION_ERROR`, status 401. -/
def mkAuthenticationError (message : JsonValue) : ClassifiedError :=
  { mkHashubVectorError message (some "AUTHENTICATION_ERROR") (some 401) none with
    name := "AuthenticationError" }

/-- Model of `new RateLimitError(message, retryAfter?)`: code `RATE_LIMIT_ERROR`, status 429. -/
def mkRateLimitError (message : JsonValue) (retryAfter : Option JsNumber) :
    ClassifiedError :=
  { mkHashubVectorError message (some "RATE_LIMIT_ERROR") (some 429) none with
    name := "RateLimitError", retryAfter := retryAfter }

/-- Model of `new QuotaExceededError(message)`: code `QUOTA_EXCEEDED_ERROR`, status 402. -/
def mkQuotaExceededError (message : JsonValue) : ClassifiedError :=
  { mkHashubVectorError message (some "QUOTA_EXCEEDED_ERROR") (some 402) none with
    name := "QuotaExceededError" }

/-- Model of `new ValidationError(message)`: code `VALIDATION_ERROR`, status 400. -/
def mkValidationError (message : JsonValue) : ClassifiedError :=
  { mkHashubVectorError message (some "VALIDATION_ERROR") (some 400) none with
    name := "ValidationError" }

/-- Model of `new ServerError(message)`: code `SERVER_ERROR`, status 500. -/
def mkServerError (message : JsonValue) : ClassifiedError :=
  { mkHashubVectorError message (some "SERVER_ERROR") (some 500) none with
    name := "ServerError" }

/-- Model of `new NetworkError(message)`: code `NETWORK_ERROR`, no status. -/
def mkNetworkError (message : JsonValue) : ClassifiedError :=
  { mkHashubVectorError message (some "NETWORK_ERROR") none none with
    name := "NetworkError" }

/-- Model of `new TimeoutError(message)`: code `TIMEOUT_ERROR`, no status. -/
def mkTimeoutError (message : JsonValue) : ClassifiedError :=
  { mkHashubVectorError message (some "TIMEOUT_ERROR") none none with
    name := "TimeoutError" }

/-! ## The failures fed to the classifier -/

/-- The part of an axios error response that `handleError` inspects:
HTTP status, decoded body, and the (lower-cased) response headers. -/
structure FailureResponse where
  status : Nat
  data : JsonValue
  headers : List (String × String)

/-- An axios failure as seen by the response interceptor: an optional
transport error `code` (e.g. `ECONNABORTED`), the error's `message`
string, and the response when one was received.  `message := none` models
a degenerate failure object without a `message` property. -/
structure AxiosFailure where
  code : Option String
  message : Option String
  response : Option FailureResponse

/-- Assoc-list lookup used for `error.response.headers['retry-after']`. -/
def headerLookup (headers : List (String × String)) (k : String) :
    Option String :=
  (headers.find? (fun p => p.1 == k)).map Prod.snd

/-- Model of `data?.message || data?.error || 'Unknown error'` — JavaScript `||`
takes the first truthy operand. -/
def extractMessage (data : JsonValue) : JsonValue :=
  if truthyOpt (data.getField "message") then
    (data.getField "message").getD .null
  else if truthyOpt (data.getField "error") then
    (data.getField "error").getD .null
  else .str "Unknown error"

/-- Model of `error.message || 'Network error'` on the failure's message string
(`undefined` and `""` are falsy). -/
def messageOrNetworkError : Option String → String
  | some m => if m ≠ "" then m else "Network error"
  | none => "Network error"

/-- Model of `HashubVector.handleError` (`src/client.ts`): classify an axios failure
into an SDK error.  The `switch` on the status is embedded as the
equivalent first-match equality chain. -/
def handleError (e : AxiosFailure) : ClassifiedError :=
  if e.code == some "ECONNABORTED" || e.code == some "ETIMEDOUT" then
    mkTimeoutError (.str "Request timeout")
  else if e.code == some "ENOTFOUND" || e.code == some "ECONNREFUSED" then
    mkNetworkError (.str "Network connection error")
  else
    match e.response with
    | none => mkNetworkError (.str (messageOrNetworkError e.message))
    | some resp =>
      let message := extractMessage resp.data
      if resp.status == 401 then mkAuthenticationError message
      else if resp.status == 402 then mkQuotaExceededError message
      else if resp.status == 400 then mkValidationError message
      else if resp.status == 429 then
        let retryAfter := headerLookup resp.headers "retry-after"
        mkRateLimitError message
          (match retryAfter with
           | some h => if h ≠ "" then some (parseIntJs h) else none
           | none => none)
      else if resp.status == 500 || resp.status == 502 ||
              resp.status == 503 || resp.status == 504 then
        mkServerError message
      else
        mkHashubVectorError message (some "API_ERROR") (some resp.status)
          (some resp.data)

/-! ## The retrying executor `makeRequest` (`src/client.ts`)

Each loop iteration either succeeds (the response body is returned) or the
interceptor rejects with the classified error; the environment is modelled
by a function from the attempt index to that attempt's outcome. -/

/-- Outcome of one HTTP attempt: a decoded response body, or the raw axios
failure (which the interceptor classifies before `makeRequest` sees it). -/
inductive AttemptOutcome (T : Type) where
  | success (value : T)
  | failure (e : AxiosFailure)

/-- What a `makeRequest` call produces: a decoded result, a raised
classified error, or — only reachable when `maxRetries = 0` — the raw
`throw lastError!` of an unset `lastError` (JavaScript `undefined`). -/
inductive RequestResult (T : Type) where
  | ok (value : T)
  | err (e : ClassifiedError)
  | undef
deriving Repr

/-- Observable trace of one `makeRequest` call: its result, the backoff
delays slept (in ms, in order), and the number of HTTP attempts issued. -/
structure RunTrace (T : Type) where
  result : RequestResult T
  delays : List Nat
  attempts : Nat
deriving Repr

/-- The guard `error.status && error.status >= 400 && error.status < 500 &&
error.status !== 429` of the retry loop: true exactly when the classified
error is thrown without further attempts. -/
def shouldNotRetry (e : ClassifiedError) : Bool :=
  match e.status with
  | some s => s != 0 && decide (400 ≤ s) && decide (s < 500) && s != 429
  | none => false

/-- The body of `makeRequest`'s `for` loop, from iteration `attempt` on.
`fuel` is the number of remaining iterations (`maxRetries - attempt` at
every call site), making the recursion structural; `lastError` is the
loop-carried last classified failure. -/
def makeRequestAux {T : Type} (world : Nat → AttemptOutcome T)
    (maxRetries : Nat) : Nat → Nat → Option ClassifiedError → RunTrace T
  | _, 0, lastError =>
    { result := match lastError with
        | some e => .err e
        | none => .undef
      delays := [], attempts := 0 }
  | attempt, fuel + 1, _ =>
    match world attempt with
    | .success v => { result := .ok v, delays := [], attempts := 1 }
    | .failure f =>
      let e := handleError f
      if shouldNotRetry e then
        { result := .err e, delays := [], attempts := 1 }
      else
        let rest := makeRequestAux world maxRetries (attempt + 1) fuel (some e)
        { result := rest.result
          delays :=
            if attempt < maxRetries - 1 then
              2 ^ attempt * 1000 :: rest.delays
            else rest.delays
          attempts := 1 + rest.attempts }

/-- Model of `HashubVector.makeRequest`: run the attempt loop
`for (attempt = 0; attempt < maxRetries; attempt++)`. -/
def makeRequest {T : Type} (world : Nat → AttemptOutcome T)
    (maxRetries : Nat) : RunTrace T :=
  makeRequestAux world maxRetries 0 maxRetries none

/-! ## Constructor: configuration resolution and headers (`src/client.ts`) -/

/-- The caller-supplied `HashubVectorConfig` (`src/types.ts`): only
`apiKey` is required. An absent optional field is `none`. -/
structure HashubVectorConfig where
  apiKey : String
  baseUrl : Option String
  timeout : Option Nat
  maxRetries : Option Nat
  headers : Option (List (String × String))

/-- The client's stored `Required<HashubVectorConfig>`. -/
structure ResolvedConfig where
  apiKey : String
  baseUrl : String
  timeout : Nat
  maxRetries : Nat
  headers : List (String × String)
deriving Repr, DecidableEq

/-- The constructor's `this.config = { baseUrl: …, timeout: 30000,
maxRetries: 3, headers: {}, ...config }`: a field present in `config`
overrides its default. -/
def resolveConfig (c : HashubVectorConfig) : ResolvedConfig :=
  { apiKey := c.apiKey
    baseUrl := c.baseUrl.getD "https://api.vector.hashub.dev"
    timeout := c.timeout.getD 30000
    maxRetries := c.maxRetries.getD 3
    headers := c.headers.getD [] }

/-- The headers object passed to `axios.create`:
`{ Authorization: …, 'Content-Type': …, 'User-Agent': …, ...headers }`.
An object literal with spread lists bindings in order; a later binding
for the same key overrides an earlier one, so the list order carries the
spread semantics and `jsObjGet` reads the last binding. -/
def buildHeaders (apiKey : String) (extraHeaders : List (String × String)) :
    List (String × String) :=
  [("Authorization", "Bearer " ++ apiKey),
   ("Content-Type", "application/json"),
   ("User-Agent", "hashub-vector-js/1.0.0")] ++ extraHeaders

/-- Key lookup in a JavaScript object built by an object literal with
spreads: the last binding of the key wins. -/
def jsObjGet (bindings : List (String × String)) (k : String) :
    Option String :=
  (bindings.reverse.find? (fun p => p.1 == k)).map Prod.snd

/-- The default request headers the constructed client attaches to every
request (the per-request config in `makeRequest` never sets headers). -/
def clientHeaders (c : HashubVectorConfig) : List (String × String) :=
  buildHeaders (resolveConfig c).apiKey (resolveConfig c).headers

/-! ## Request shaping: default model substitution (`src/client.ts`) -/

/-- The `EmbeddingModel` union (`src/types.ts`): six non-empty string
literals, so every value is truthy. -/
inductive EmbeddingModel where
  | gte_base
  | nomic_base
  | e5_base
  | mpnet_base
  | e5_small
  | minilm_base
deriving Repr, DecidableEq

/-- Model of `request.model || 'e5_base'`: every `EmbeddingModel` literal is a
non-empty string, hence truthy, so `||` only substitutes on absence. -/
def modelOrDefault : Option EmbeddingModel → EmbeddingModel
  | some m => m
  | none => .e5_base

/-- The `VectorizeRequest` interface (`src/types.ts`). -/
structure VectorizeRequest where
  text : String
  model : Option EmbeddingModel
  chunkSize : Option Nat
  chunkOverlap : Option Nat

/-- The body `vectorize` posts to `/vectorize`. -/
structure VectorizeBody where
  text : String
  model : EmbeddingModel
  chunk_size : Option Nat
  chunk_overlap : Option Nat
deriving Repr, DecidableEq

/-- Request shaping of `vectorize`. -/
def vectorizeBody (r : VectorizeRequest) : VectorizeBody :=
  { text := r.text
    model := modelOrDefault r.model
    chunk_size := r.chunkSize
    chunk_overlap := r.chunkOverlap }

/-- The `VectorizeBatchRequest` interface (`src/types.ts`). -/
structure VectorizeBatchRequest where
  texts : List String
  model : Option EmbeddingModel
  chunkSize : Option Nat
  chunkOverlap : Option Nat

/-- The body `vectorizeBatch` posts to `/vectorize-batch`. -/
structure VectorizeBatchBody where
  texts : List String
  model : EmbeddingModel
  chunk_size : Option Nat
  chunk_overlap : Option Nat
deriving Repr, DecidableEq

/-- Request shaping of `vectorizeBatch`. -/
def vectorizeBatchBody (r : VectorizeBatchRequest) : VectorizeBatchBody :=
  { texts := r.texts
    model := modelOrDefault r.model
    chunk_size := r.chunkSize
    chunk_overlap := r.chunkOverlap }

/-- The `SimilarityRequest` interface (`src/types.ts`). -/
structure SimilarityRequest where
  text1 : String
  text2 : String
  model : Option EmbeddingModel

/-- The body `similarity` posts to `/similarity`. -/
structure SimilarityBody where
  text1 : String
  text2 : String
  model : EmbeddingModel
deriving Repr, DecidableEq

/-- Request shaping of `similarity`. -/
def similarityBody (r : SimilarityRequest) : SimilarityBody :=
  { text1 := r.text1
    text2 := r.text2
    model := modelOrDefault r.model }

/-- A failure carrying none of the four transport error codes that the
classifier tests before looking at the response. -/
def noTransportCode (c : Option String) : Prop :=
  c ≠ some "ECONNABORTED" ∧ c ≠ some "ETIMEDOUT" ∧
  c ≠ some "ENOTFOUND" ∧ c ≠ some "ECONNREFUSED"

/-! ## Theorems -/

/-- **C3**: the classifier `handleError` maps every failure to exactly one
error kind by the fixed first-match precedence: `ECONNABORTED`/`ETIMEDOUT`
to Timeout; `ENOTFOUND`/`ECONNREFUSED` to Network; any other failure
without a response to Network (with the failure's own message); then
HTTP 401 to Authentication, 402 to QuotaExceeded, 400 to Validation,
429 to RateLimit, 500/502/503/504 to Server; and any other status to the
unclassified generic `HashubVectorError` carrying the raw status and body. -/
theorem c3_classifier_precedence :
    (∀ e : AxiosFailure,
      e.code = some "ECONNABORTED" ∨ e.code = some "ETIMEDOUT" →
      handleError e = mkTimeoutError (.str "Request timeout"))
    ∧ (∀ e : AxiosFailure,
      e.code ≠ some "ECONNABORTED" → e.code ≠ some "ETIMEDOUT" →
      e.code = some "ENOTFOUND" ∨ e.code = some "ECONNREFUSED" →
      handleError e = mkNetworkError (.str "Network connection error"))
    ∧ (∀ e : AxiosFailure, noTransportCode e.code → e.response = none →
      handleError e = mkNetworkError (.str (messageOrNetworkError e.message)))
    ∧ (∀ (e : AxiosFailure) (r : FailureResponse), noTransportCode e.code →
      e.response = some r → r.status = 401 →
      (handleError e).name = "AuthenticationError")
    ∧ (∀ (e : AxiosFailure) (r : FailureResponse), noTransportCode e.code →
      e.response = some r → r.status = 402 →
      (handleError e).name = "QuotaExceededError")
    ∧ (∀ (e : AxiosFailure) (r : FailureResponse), noTransportCode e.code →
      e.response = some r → r.status = 400 →
      (handleError e).name = "ValidationError")
    ∧ (∀ (e : AxiosFailure) (r : FailureResponse), noTransportCode e.code →
      e.response = some r → r.status = 429 →
      (handleError e).name = "RateLimitError")
    ∧ (∀ (e : AxiosFailure) (r : FailureResponse), noTransportCode e.code →
      e.response = some r →
      r.status = 500 ∨ r.status = 502 ∨ r.status = 503 ∨ r.status = 504 →
      (handleError e).name = "ServerError")
    ∧ (∀ (e : AxiosFailure) (r : FailureResponse), noTransportCode e.code →
      e.response = some r →
      r.status ∉ ([401, 402, 400, 429, 500, 502, 503, 504] : List Nat) →
      handleError e = mkHashubVectorError (extractMessage r.data)
        (some "API_ERROR") (some r.status) (some r.data)) := by
  refine ⟨?_, ?_, ?_, ?_, ?_, ?_, ?_, ?_, ?_⟩
  · intro e h
    unfold handleError
    rcases h with h | h <;> simp [h]
  · intro e h1 h2 h
    unfold handleError
    rcases h with h | h <;> simp [h, h1, h2]
  · intro e ⟨h1, h2, h3, h4⟩ hr
    unfold handleError
    simp [h1, h2, h3, h4, hr]
  · intro e r ⟨h1, h2, h3, h4⟩ hr hs
    unfold handleError
    simp [h1, h2, h3, h4, hr, hs, mkAuthenticationError, mkHashubVectorError]
  · intro e r ⟨h1, h2, h3, h4⟩ hr hs
    unfold handleError
    simp [h1, h2, h3, h4, hr, hs, mkQuotaExceededError, mkHashubVectorError]
  · intro e r ⟨h1, h2, h3, h4⟩ hr hs
    unfold handleError
    simp [h1, h2, h3, h4, hr, hs, mkValidationError, mkHashubVectorError]
  · intro e r ⟨h1, h2, h3, h4⟩ hr hs
    unfold handleError
    simp [h1, h2, h3, h4, hr, hs, mkRateLimitError, mkHashubVectorError]
  · intro e r ⟨h1, h2, h3, h4⟩ hr hs
    unfold handleError
    rcases hs with hs | hs | hs | hs <;>
      simp [h1, h2, h3, h4, hr, hs, mkServerError, mkHashubVectorError]
  · intro e r ⟨h1, h2, h3, h4⟩ hr hs
    simp only [List.mem_cons, List.not_mem_nil, or_false] at hs
    push_neg at hs
    obtain ⟨s1, s2, s3, s4, s5, s6, s7, s8⟩ := hs
    unfold handleError
    simp [h1, h2, h3, h4, hr, s1, s2, s3, s4, s5, s6, s7, s8]

/-- Witness for C3: the precedence theorem applied to a concrete timeout
failure and to a concrete unclassified HTTP 404 failure. -/
theorem c3_classifier_precedence_witness :
    handleError ⟨some "ECONNABORTED", none, none⟩ =
      mkTimeoutError (.str "Request timeout")
    ∧ (handleError ⟨none, none, some ⟨404, .obj [], []⟩⟩).name =
      "HashubVectorError" := by
  constructor
  · exact c3_classifier_precedence.1 _ (Or.inl rfl)
  · have h := c3_classifier_precedence.2.2.2.2.2.2.2.2
      ⟨none, none, some ⟨404, .obj [], []⟩⟩ ⟨404, .obj [], []⟩
      (by simp [noTransportCode]) rfl (by decide)
    rw [h]
    rfl

/-- **C8**: the classifier is a total pure function of its argument: being
a Lean function it is deterministic and effect-free, every failure shape
is mapped to one of the eight SDK error classes, and the degenerate shapes
(no code, no response, non-object body, non-numeric `retry-after` header)
are classified without failing. -/
theorem c8_classifier_total :
    (∀ e : AxiosFailure, ∃ c : ClassifiedError, handleError e = c)
    ∧ (∀ e : AxiosFailure,
      (handleError e).name = "TimeoutError" ∨
      (handleError e).name = "NetworkError" ∨
      (handleError e).name = "AuthenticationError" ∨
      (handleError e).name = "QuotaExceededError" ∨
      (handleError e).name = "ValidationError" ∨
      (handleError e).name = "RateLimitError" ∨
      (handleError e).name = "ServerError" ∨
      (handleError e).name = "HashubVectorError")
    ∧ handleError ⟨none, none, none⟩ = mkNetworkError (.str "Network error")
    ∧ (handleError ⟨none, none, some ⟨401, .str "oops", []⟩⟩).message =
      .str "Unknown error"
    ∧ (handleError ⟨none, none, some ⟨429, .obj [], [("retry-after", "soon")]⟩⟩).retryAfter =
      some .nan := by
  refine ⟨fun e => ⟨handleError e, rfl⟩, ?_, rfl, rfl, rfl⟩
  intro e
  obtain ⟨c, m, resp⟩ := e
  rcases resp with _ | r <;>
    simp only [handleError] <;>
    split_ifs <;>
    simp [mkTimeoutError, mkNetworkError, mkAuthenticationError,
      mkQuotaExceededError, mkValidationError, mkRateLimitError,
      mkServerError, mkHashubVectorError]

/-- A 401 response body whose `message` field is present but empty while
its `error` field is `"deep"`. -/
def bodyEmptyMessage : JsonValue :=
  .obj [("message", .str ""), ("error", .str "deep")]

/-- An HTTP 401 failure carrying `bodyEmptyMessage`. -/
def failure401EmptyMessage : AxiosFailure :=
  ⟨none, none, some ⟨401, bodyEmptyMessage, []⟩⟩

/-- Counterexample for C5: on a body whose `message` field is present but
empty, `data?.message || data?.error || 'Unknown error'` skips the falsy
empty string and uses the `error` field, so the classified message is
`"deep"`, not the present `message` field `""`. -/
theorem c5_message_extraction_counterexample :
    bodyEmptyMessage.getField "message" = some (.str "")
    ∧ (handleError failure401EmptyMessage).name = "AuthenticationError"
    ∧ (handleError failure401EmptyMessage).message = .str "deep"
    ∧ (handleError failure401EmptyMessage).message ≠ .str "" := by
  refine ⟨rfl, rfl, rfl, ?_⟩
  rw [show (handleError failure401EmptyMessage).message = .str "deep" from rfl]
  simp

/-- Modelled from the amended claim's words: the classified message is the
body's `message` field when present and truthy (for a string: non-empty),
else the body's `error` field when present and truthy, else the literal
`"Unknown error"`. -/
def amendedMessagePolicy (data : JsonValue) : JsonValue :=
  match data.getField "message" with
  | some m =>
    if m.truthy then m
    else
      match data.getField "error" with
      | some er => if er.truthy then er else .str "Unknown error"
      | none => .str "Unknown error"
  | none =>
    match data.getField "error" with
    | some er => if er.truthy then er else .str "Unknown error"
    | none => .str "Unknown error"

/-- The source's message extraction agrees with the amended policy. -/
lemma extractMessage_eq_amendedPolicy (data : JsonValue) :
    extractMessage data = amendedMessagePolicy data := by
  unfold extractMessage amendedMessagePolicy truthyOpt
  rcases hm : data.getField "message" with _ | m <;>
    rcases he : data.getField "error" with _ | er <;>
    simp only [hm, he] <;> split_ifs <;> simp_all

/-- **C5 (amended)**: for every HTTP failure bearing a response, the
classified error's message is the body's `message` field when present and
truthy (non-empty), else the body's `error` field when present and truthy,
else the literal `"Unknown error"`; in particular an HTTP 401 with body
`{"message":"bad key"}` yields an Authentication error with message
`"bad key"`. -/
theorem c5_message_extraction_amended :
    (∀ (status : Nat) (data : JsonValue) (headers : List (String × String)),
      (handleError ⟨none, none, some ⟨status, data, headers⟩⟩).message =
        amendedMessagePolicy data)
    ∧ handleError ⟨none, none, some ⟨401, .obj [("message", .str "bad key")], []⟩⟩ =
      mkAuthenticationError (.str "bad key") := by
  refine ⟨?_, rfl⟩
  intro status data headers
  simp only [handleError]
  split_ifs <;>
    simp_all [mkAuthenticationError, mkQuotaExceededError, mkValidationError,
      mkRateLimitError, mkServerError, mkHashubVectorError,
      extractMessage_eq_amendedPolicy]

/-- An HTTP 429 failure whose `retry-after` header is present but empty. -/
def failure429EmptyHeader : AxiosFailure :=
  ⟨none, none, some ⟨429, .obj [], [("retry-after", "")]⟩⟩

/-- Counterexample for C6: a present-but-empty `retry-after` header is
falsy, so `retryAfter ? parseInt(retryAfter) : undefined` yields no
retry-after value at all, even though the header is present — the claim's
"carries the header, when present, parsed as integer seconds" fails on
this input. -/
theorem c6_retry_after_counterexample :
    headerLookup [("retry-after", "")] "retry-after" = some ""
    ∧ (handleError failure429EmptyHeader).name = "RateLimitError"
    ∧ (handleError failure429EmptyHeader).retryAfter = none
    ∧ (handleError failure429EmptyHeader).retryAfter ≠
      some (parseIntJs "") := by
  refine ⟨rfl, rfl, rfl, ?_⟩
  rw [show (handleError failure429EmptyHeader).retryAfter = none from rfl]
  simp

/-- **C6 (amended)**: for every HTTP 429 failure, the classified RateLimit
error carries the `retry-after` response header, when present and
non-empty (truthy), parsed with JavaScript `parseInt`; header
`retry-after: 30` yields integer 30, and an absent header — like a
present-but-empty one — yields no retry-after value. -/
theorem c6_rate_limit_retry_after :
    (∀ (data : JsonValue) (headers : List (String × String)),
      headerLookup headers "retry-after" = none →
      (handleError ⟨none, none, some ⟨429, data, headers⟩⟩).retryAfter = none)
    ∧ (∀ (data : JsonValue) (headers : List (String × String)) (h : String),
      headerLookup headers "retry-after" = some h → h ≠ "" →
      (handleError ⟨none, none, some ⟨429, data, headers⟩⟩).retryAfter =
        some (parseIntJs h))
    ∧ (∀ data : JsonValue,
      (handleError ⟨none, none, some ⟨429, data, [("retry-after", "30")]⟩⟩).retryAfter =
        some (.int 30))
    ∧ (∀ data : JsonValue,
      (handleError ⟨none, none, some ⟨429, data, []⟩⟩).retryAfter = none)
    ∧ (∀ (data : JsonValue) (headers : List (String × String)),
      (handleError ⟨none, none, some ⟨429, data, headers⟩⟩).name =
        "RateLimitError")
    ∧ (∀ (data : JsonValue) (headers : List (String × String)),
      headerLookup headers "retry-after" = some "" →
      (handleError ⟨none, none, some ⟨429, data, headers⟩⟩).retryAfter =
        none) := by
  refine ⟨?_, ?_, ?_, ?_, ?_, ?_⟩
  · intro data headers hl
    simp [handleError, hl, mkRateLimitError, mkHashubVectorError]
  · intro data headers h hl hne
    simp [handleError, hl, hne, mkRateLimitError, mkHashubVectorError]
  · intro data
    simp [handleError, headerLookup, mkRateLimitError, mkHashubVectorError]
    rfl
  · intro data
    simp [handleError, headerLookup, mkRateLimitError, mkHashubVectorError]
  · intro data headers
    simp [handleError, mkRateLimitError, mkHashubVectorError]
  · intro data headers hl
    simp [handleError, hl, mkRateLimitError, mkHashubVectorError]

/-- Witness for C6: the amended theorem applied at concrete 429 failures
with header `retry-after: 30`, with no headers, and with a
present-but-empty `retry-after` header. -/
theorem c6_rate_limit_retry_after_witness :
    (handleError ⟨none, none, some ⟨429, .obj [], [("retry-after", "30")]⟩⟩).retryAfter =
      some (.int 30)
    ∧ (handleError ⟨none, none, some ⟨429, .obj [], []⟩⟩).retryAfter = none
    ∧ (handleError ⟨none, none, some ⟨429, .obj [],
        [("retry-after", "")]⟩⟩).retryAfter = none := by
  refine ⟨?_, ?_, ?_⟩
  · have h := c6_rate_limit_retry_after.2.1 (.obj []) [("retry-after", "30")]
      "30" rfl (by decide)
    rw [h]
    rfl
  · exact c6_rate_limit_retry_after.1 (.obj []) [] rfl
  · exact c6_rate_limit_retry_after.2.2.2.2.2 (.obj [])
      [("retry-after", "")] rfl

/-- A classified error of one of the three client-side kinds carries its
class's fixed 4xx status, so the executor's retry guard fires. -/
lemma shouldNotRetry_of_client_kind (f : AxiosFailure)
    (h : (handleError f).name = "AuthenticationError" ∨
         (handleError f).name = "QuotaExceededError" ∨
         (handleError f).name = "ValidationError") :
    shouldNotRetry (handleError f) = true := by
  obtain ⟨c, m, resp⟩ := f
  rcases resp with _ | r <;>
    simp only [handleError] at h ⊢ <;>
    split_ifs at h ⊢ <;>
    simp_all [mkTimeoutError, mkNetworkError, mkAuthenticationError,
      mkQuotaExceededError, mkValidationError, mkRateLimitError,
      mkServerError, mkHashubVectorError, shouldNotRetry]

/-- A classified error of one of the four kinds the spec calls retryable
has no status or a status outside the guarded non-429 4xx range, so the
executor's retry guard does not fire. -/
lemma not_shouldNotRetry_of_retryable_kind (f : AxiosFailure)
    (h : (handleError f).name = "RateLimitError" ∨
         (handleError f).name = "ServerError" ∨
         (handleError f).name = "NetworkError" ∨
         (handleError f).name = "TimeoutError") :
    shouldNotRetry (handleError f) = false := by
  obtain ⟨c, m, resp⟩ := f
  rcases resp with _ | r <;>
    simp only [handleError] at h ⊢ <;>
    split_ifs at h ⊢ <;>
    simp_all [mkTimeoutError, mkNetworkError, mkAuthenticationError,
      mkQuotaExceededError, mkValidationError, mkRateLimitError,
      mkServerError, mkHashubVectorError, shouldNotRetry]

/-- Loop invariant for an all-failing world whose failures all pass the
retry guard: the loop runs `fuel` more attempts, sleeps the exponential
delays for every attempt but the last, and raises the classification of
the final attempt's failure. -/
lemma makeRequestAux_all_fail_retryable {T : Type}
    (world : Nat → AttemptOutcome T) (f : Nat → AxiosFailure)
    (hw : ∀ i, world i = .failure (f i))
    (hr : ∀ i, shouldNotRetry (handleError (f i)) = false)
    (maxRetries : Nat) :
    ∀ fuel attempt lastErr, attempt + fuel = maxRetries → 1 ≤ fuel →
    makeRequestAux world maxRetries attempt fuel lastErr =
      { result := .err (handleError (f (maxRetries - 1)))
        delays := (List.range' attempt (fuel - 1)).map (fun i => 2 ^ i * 1000)
        attempts := fuel } := by
  intro fuel
  induction fuel with
  | zero => intro attempt lastErr hsum hge; omega
  | succ n ih =>
    intro attempt lastErr hsum _
    unfold makeRequestAux
    rw [hw attempt]
    simp only [hr attempt, if_false]
    cases n with
    | zero =>
      unfold makeRequestAux
      have hm : maxRetries - 1 = attempt := by omega
      have ha : ¬ (attempt < maxRetries - 1) := by omega
      simp [ha, hm]
    | succ m =>
      rw [ih (attempt + 1) (some (handleError (f attempt))) (by omega) (by omega)]
      have ha : attempt < maxRetries - 1 := by omega
      simp [ha, List.range'_succ]
      omega

/-- Loop invariant for an all-failing world with no retryability
assumption: at least one attempt runs, and the loop raises the
classification of the last attempt's failure. -/
lemma makeRequestAux_all_fail_last {T : Type}
    (world : Nat → AttemptOutcome T) (f : Nat → AxiosFailure)
    (hw : ∀ i, world i = .failure (f i)) (maxRetries : Nat) :
    ∀ fuel attempt lastErr, 1 ≤ fuel →
    1 ≤ (makeRequestAux world maxRetries attempt fuel lastErr).attempts ∧
    (makeRequestAux world maxRetries attempt fuel lastErr).result =
      .err (handleError (f (attempt +
        (makeRequestAux world maxRetries attempt fuel lastErr).attempts - 1))) := by
  intro fuel
  induction fuel with
  | zero => intro attempt lastErr hge; omega
  | succ n ih =>
    intro attempt lastErr _
    unfold makeRequestAux
    rw [hw attempt]
    by_cases hguard : shouldNotRetry (handleError (f attempt)) = true
    · simp [hguard]
    · simp only [hguard, if_false, Bool.false_eq_true]
      cases n with
      | zero =>
        unfold makeRequestAux
        simp
      | succ m =>
        obtain ⟨h1, h2⟩ := ih (attempt + 1) (some (handleError (f attempt)))
          (by omega)
        constructor
        · show 1 ≤ 1 + (makeRequestAux world maxRetries (attempt + 1) (m + 1)
            (some (handleError (f attempt)))).attempts
          omega
        · show (makeRequestAux world maxRetries (attempt + 1) (m + 1)
              (some (handleError (f attempt)))).result =
            .err (handleError (f (attempt + (1 + (makeRequestAux world maxRetries
              (attempt + 1) (m + 1) (some (handleError (f attempt)))).attempts) - 1)))
          have hidx : attempt + (1 + (makeRequestAux world maxRetries (attempt + 1)
              (m + 1) (some (handleError (f attempt)))).attempts) - 1 =
            attempt + 1 + (makeRequestAux world maxRetries (attempt + 1) (m + 1)
              (some (handleError (f attempt)))).attempts - 1 := by omega
          rw [hidx]
          exact h2

/-- The attempt loop never raises JavaScript `undefined` when it has fuel
or an already-recorded error. -/
lemma makeRequestAux_ok_or_err {T : Type} (world : Nat → AttemptOutcome T)
    (maxRetries : Nat) :
    ∀ fuel attempt lastErr, 1 ≤ fuel ∨ lastErr ≠ none →
    (∃ v, (makeRequestAux world maxRetries attempt fuel lastErr).result = .ok v) ∨
    (∃ e, (makeRequestAux world maxRetries attempt fuel lastErr).result = .err e) := by
  intro fuel
  induction fuel with
  | zero =>
    intro attempt lastErr hp
    rcases lastErr with _ | e
    · rcases hp with hp | hp
      · omega
      · simp at hp
    · exact Or.inr ⟨e, rfl⟩
  | succ n ih =>
    intro attempt lastErr _
    unfold makeRequestAux
    rcases hwa : world attempt with v | f
    · exact Or.inl ⟨v, rfl⟩
    · by_cases hguard : shouldNotRetry (handleError f) = true
      · exact Or.inr ⟨handleError f, by simp [hguard]⟩
      · have := ih (attempt + 1) (some (handleError f)) (Or.inr (by simp))
        simpa [hguard] using this

/-- An HTTP 404 failure: its classification is the unclassified generic
`API_ERROR`, whose status 404 trips the executor's non-retry guard. -/
def failure404 : AxiosFailure :=
  ⟨none, some "Request failed", some ⟨404, .obj [], []⟩⟩

/-- Counterexample for C1: the failure classified to the unclassified
generic kind (`API_ERROR`, here from HTTP 404) is **not** retried —
with `maxRetries = 3` the executor performs a single attempt and sleeps
no backoff delay, instead of the claimed 3 attempts with delays
1000 ms and 2000 ms. -/
theorem c1_retry_counterexample :
    (handleError failure404).code = some "API_ERROR"
    ∧ (handleError failure404).name = "HashubVectorError"
    ∧ (makeRequest (fun _ => .failure failure404) 3 : RunTrace Nat).attempts = 1
    ∧ (makeRequest (fun _ => .failure failure404) 3 : RunTrace Nat).delays = []
    ∧ (makeRequest (fun _ => .failure failure404) 3 : RunTrace Nat).attempts ≠ 3 := by
  refine ⟨rfl, rfl, rfl, rfl, ?_⟩
  rw [show (makeRequest (fun _ => .failure failure404) 3 : RunTrace Nat).attempts = 1
    from rfl]
  simp

/-- **C1 (amended)**: for every failure whose classified error passes the
executor's retry guard — RateLimit, Server, Network, Timeout, and
unclassified errors whose status lies outside the non-429 4xx range
(unclassified non-429 4xx errors such as 404 are instead raised at once) —
`makeRequest` retries up to `maxRetries - 1` additional times, sleeping
`2^i * 1000` ms after attempt `i` (0-indexed: 1 s, 2 s, 4 s, …), with no
sleep after the final attempt, and raises the last classification; with
`maxRetries = 1` every failure is raised after exactly one attempt with
zero backoff delay.  The first conjunct records that the four named
retryable kinds always pass the guard. -/
theorem c1_retryable_backoff {T : Type} (world : Nat → AttemptOutcome T)
    (f : Nat → AxiosFailure) (maxRetries : Nat) (hM : 1 ≤ maxRetries)
    (hw : ∀ i, world i = .failure (f i))
    (hr : ∀ i, shouldNotRetry (handleError (f i)) = false) :
    (∀ g : AxiosFailure,
      (handleError g).name = "RateLimitError" ∨
      (handleError g).name = "ServerError" ∨
      (handleError g).name = "NetworkError" ∨
      (handleError g).name = "TimeoutError" →
      shouldNotRetry (handleError g) = false)
    ∧ makeRequest world maxRetries =
      { result := .err (handleError (f (maxRetries - 1)))
        delays := (List.range (maxRetries - 1)).map (fun i => 2 ^ i * 1000)
        attempts := maxRetries }
    ∧ (∀ g : AxiosFailure,
      (makeRequest (fun _ => .failure g) 1 : RunTrace T) =
        { result := .err (handleError g), delays := [], attempts := 1 }) := by
  refine ⟨not_shouldNotRetry_of_retryable_kind, ?_, ?_⟩
  · unfold makeRequest
    rw [makeRequestAux_all_fail_retryable world f hw hr maxRetries maxRetries 0
      none (by omega) hM]
    rw [List.range_eq_range']
  · intro g
    unfold makeRequest makeRequestAux
    by_cases hguard : shouldNotRetry (handleError g) = true
    · simp [hguard]
    · simp only [hguard, if_false, Bool.false_eq_true]
      unfold makeRequestAux
      simp

/-- Witness for C1: the amended theorem applied to a world failing every
attempt with HTTP 500, `maxRetries = 3`: three attempts, delays 1000 ms
then 2000 ms, and the last failure's classification raised. -/
theorem c1_retryable_backoff_witness :
    (makeRequest (fun _ => .failure ⟨none, none, some ⟨500, .obj [], []⟩⟩) 3 :
        RunTrace Nat) =
      { result := .err (mkServerError (.str "Unknown error"))
        delays := [1000, 2000], attempts := 3 } := by
  have h := (c1_retryable_backoff (T := Nat)
    (fun _ => .failure ⟨none, none, some ⟨500, .obj [], []⟩⟩)
    (fun _ => ⟨none, none, some ⟨500, .obj [], []⟩⟩) 3 (by omega)
    (fun _ => rfl) (fun _ => rfl)).2.1
  rw [h]
  rfl

/-- **C2**: for every failure whose classified kind is Authentication,
QuotaExceeded, or Validation, `makeRequest` performs exactly one HTTP
attempt and raises the classified error immediately, with no retry and no
backoff sleep. -/
theorem c2_client_errors_no_retry {T : Type} (world : Nat → AttemptOutcome T)
    (g : AxiosFailure) (maxRetries : Nat) (hM : 1 ≤ maxRetries)
    (hw : world 0 = .failure g)
    (hname : (handleError g).name = "AuthenticationError" ∨
             (handleError g).name = "QuotaExceededError" ∨
             (handleError g).name = "ValidationError") :
    makeRequest world maxRetries =
      { result := .err (handleError g), delays := [], attempts := 1 } := by
  obtain ⟨n, rfl⟩ : ∃ n, maxRetries = n + 1 :=
    ⟨maxRetries - 1, by omega⟩
  unfold makeRequest makeRequestAux
  rw [hw]
  simp [shouldNotRetry_of_client_kind g hname]

/-- Witness for C2: a concrete 401 failure under `maxRetries = 3` is
raised after one attempt with no delay. -/
theorem c2_client_errors_no_retry_witness :
    (makeRequest (fun _ => .failure ⟨none, none, some ⟨401, .obj [], []⟩⟩) 3 :
        RunTrace Nat) =
      { result := .err (mkAuthenticationError (.str "Unknown error"))
        delays := [], attempts := 1 } := by
  have h := c2_client_errors_no_retry (T := Nat)
    (fun _ => .failure ⟨none, none, some ⟨401, .obj [], []⟩⟩)
    ⟨none, none, some ⟨401, .obj [], []⟩⟩ 3 (by omega) rfl (Or.inl rfl)
  rw [h]
  rfl

/-- **C4**: when every attempt fails, `makeRequest` raises the classified
error of the last attempt actually performed; and every call with
`maxRetries ≥ 1` produces exactly one outcome — a decoded result or a
classified error, never both and never neither. -/
theorem c4_last_error_propagation {T : Type} (world : Nat → AttemptOutcome T)
    (maxRetries : Nat) (hM : 1 ≤ maxRetries) :
    (∀ f : Nat → AxiosFailure, (∀ i, world i = .failure (f i)) →
      1 ≤ (makeRequest world maxRetries).attempts ∧
      (makeRequest world maxRetries).result =
        .err (handleError (f ((makeRequest world maxRetries).attempts - 1))))
    ∧ ((∃ v, (makeRequest world maxRetries).result = .ok v) ↔
       ¬ ∃ e, (makeRequest world maxRetries).result = .err e) := by
  constructor
  · intro f hw
    have h := makeRequestAux_all_fail_last world f hw maxRetries maxRetries 0
      none hM
    unfold makeRequest
    simpa using h
  · have h := makeRequestAux_ok_or_err world maxRetries maxRetries 0 none
      (Or.inl hM)
    unfold makeRequest
    constructor
    · rintro ⟨v, hv⟩ ⟨e, he⟩
      rw [hv] at he
      exact RequestResult.noConfusion he
    · intro hne
      rcases h with h | h
      · exact h
      · exact absurd h hne

/-- Witness for C4: a world that always fails with HTTP 503 under
`maxRetries = 2` raises the classification of its second (last)
attempt's failure. -/
theorem c4_last_error_propagation_witness :
    1 ≤ (makeRequest (fun _ => .failure ⟨none, none, some ⟨503, .obj [], []⟩⟩) 2 :
        RunTrace Nat).attempts
    ∧ (makeRequest (fun _ => .failure ⟨none, none, some ⟨503, .obj [], []⟩⟩) 2 :
        RunTrace Nat).result =
      .err (handleError ⟨none, none, some ⟨503, .obj [], []⟩⟩) := by
  have h := (c4_last_error_propagation (T := Nat)
    (fun _ => .failure ⟨none, none, some ⟨503, .obj [], []⟩⟩) 2 (by omega)).1
    (fun _ => ⟨none, none, some ⟨503, .obj [], []⟩⟩) (fun _ => rfl)
  exact ⟨h.1, h.2⟩

/-- **C7**: constructing a client with only `apiKey` set yields the stored
config with the documented defaults — `baseUrl`
`https://api.vector.hashub.dev`, `timeout` 30000 ms, `maxRetries` 3, and
empty extra headers — while every explicitly supplied field overrides its
default and `apiKey` is stored as given. -/
theorem c7_config_defaults :
    (∀ k : String,
      resolveConfig ⟨k, none, none, none, none⟩ =
        { apiKey := k, baseUrl := "https://api.vector.hashub.dev"
          timeout := 30000, maxRetries := 3, headers := [] })
    ∧ (∀ (c : HashubVectorConfig) (u : String),
      c.baseUrl = some u → (resolveConfig c).baseUrl = u)
    ∧ (∀ (c : HashubVectorConfig) (t : Nat),
      c.timeout = some t → (resolveConfig c).timeout = t)
    ∧ (∀ (c : HashubVectorConfig) (r : Nat),
      c.maxRetries = some r → (resolveConfig c).maxRetries = r)
    ∧ (∀ (c : HashubVectorConfig) (hs : List (String × String)),
      c.headers = some hs → (resolveConfig c).headers = hs)
    ∧ (∀ c : HashubVectorConfig, (resolveConfig c).apiKey = c.apiKey) := by
  refine ⟨fun k => rfl, ?_, ?_, ?_, ?_, fun c => rfl⟩ <;>
    intro c x hx <;> simp [resolveConfig, hx]

/-- Witness for C7: the defaults theorem applied at a concrete
configuration that sets only the api key, and the override conjunct at a
configuration that sets a custom timeout. -/
theorem c7_config_defaults_witness :
    resolveConfig ⟨"my-key", none, none, none, none⟩ =
      { apiKey := "my-key", baseUrl := "https://api.vector.hashub.dev"
        timeout := 30000, maxRetries := 3, headers := [] }
    ∧ (resolveConfig ⟨"my-key", none, some 5000, none, none⟩).timeout = 5000 := by
  exact ⟨c7_config_defaults.1 "my-key",
    c7_config_defaults.2.2.1 ⟨"my-key", none, some 5000, none, none⟩ 5000 rfl⟩

/-- Counterexample for C9: extra headers are spread **after** the
`Authorization` binding in the constructor's header object, so a caller
supplying an `Authorization` extra header replaces the bearer token — the
issued requests then do not carry `Bearer <apiKey>`. -/
theorem c9_authorization_counterexample :
    jsObjGet (clientHeaders
        ⟨"k", none, none, none, some [("Authorization", "Basic xyz")]⟩)
      "Authorization" = some "Basic xyz"
    ∧ jsObjGet (clientHeaders
        ⟨"k", none, none, none, some [("Authorization", "Basic xyz")]⟩)
      "Authorization" ≠ some "Bearer k" := by
  refine ⟨rfl, ?_⟩
  rw [show jsObjGet (clientHeaders
      ⟨"k", none, none, none, some [("Authorization", "Basic xyz")]⟩)
      "Authorization" = some "Basic xyz" from rfl]
  simp

/-- **C9 (amended)**: the client's default headers carry
`Authorization: Bearer <apiKey>` for the configured api key — including
when extra custom headers are supplied at construction — provided the
extra headers do not themselves bind the key `Authorization` (such a
binding overrides the bearer token, since the extras are spread last). -/
theorem c9_authorization_header (c : HashubVectorConfig)
    (h : ∀ p ∈ (resolveConfig c).headers, p.1 ≠ "Authorization") :
    jsObjGet (clientHeaders c) "Authorization" =
      some ("Bearer " ++ c.apiKey) := by
  unfold clientHeaders buildHeaders jsObjGet
  rw [List.reverse_append]
  rw [List.find?_append]
  have hnone : ((resolveConfig c).headers.reverse.find?
      (fun p => p.1 == "Authorization")) = none := by
    rw [List.find?_eq_none]
    intro p hp
    simp only [beq_iff_eq]
    exact h p (List.mem_reverse.mp hp)
  rw [hnone]
  simp [resolveConfig]

/-- Witness for C9: a client with api key `k` and a custom non-auth extra
header still carries the bearer token. -/
theorem c9_authorization_header_witness :
    jsObjGet (clientHeaders ⟨"k", none, none, none,
        some [("X-Custom-Header", "value")]⟩) "Authorization" =
      some "Bearer k" := by
  have h := c9_authorization_header
    ⟨"k", none, none, none, some [("X-Custom-Header", "value")]⟩
    (by intro p hp; simp [resolveConfig] at hp; simp [hp])
  simpa using h

/-- **C10**: `vectorize`, `vectorizeBatch` and `similarity` substitute the
default model `e5_base` into the request body when the caller omits the
model, and pass a caller-supplied model through unchanged (every
`EmbeddingModel` literal is a non-empty string, hence truthy under
JavaScript `||`). -/
theorem c10_default_model :
    (∀ (t : String) (cs co : Option Nat),
      vectorizeBody ⟨t, none, cs, co⟩ = ⟨t, .e5_base, cs, co⟩)
    ∧ (∀ (t : String) (m : EmbeddingModel) (cs co : Option Nat),
      vectorizeBody ⟨t, some m, cs, co⟩ = ⟨t, m, cs, co⟩)
    ∧ (∀ (ts : List String) (cs co : Option Nat),
      vectorizeBatchBody ⟨ts, none, cs, co⟩ = ⟨ts, .e5_base, cs, co⟩)
    ∧ (∀ (ts : List String) (m : EmbeddingModel) (cs co : Option Nat),
      vectorizeBatchBody ⟨ts, some m, cs, co⟩ = ⟨ts, m, cs, co⟩)
    ∧ (∀ t1 t2 : String, similarityBody ⟨t1, t2, none⟩ = ⟨t1, t2, .e5_base⟩)
    ∧ (∀ (t1 t2 : String) (m : EmbeddingModel),
      similarityBody ⟨t1, t2, some m⟩ = ⟨t1, t2, m⟩) := by
  exact ⟨fun t cs co => rfl, fun t m cs co => rfl, fun ts cs co => rfl,
    fun ts m cs co => rfl, fun t1 t2 => rfl, fun t1 t2 m => rfl⟩

end HashubVector
